import Mathlib

/-!
Shallow embedding of `src/Medical Chatbot With MultiModel/app.py`.

The program validates an uploaded image, base64-encodes it, issues one HTTP
POST per configured model to the Groq chat-completions endpoint, and returns a
mapping from model display label to response text (or error text).

Modelling decisions, each tied to the Python source:

* The network is abstracted as a `transport : String → TransportOutcome` stub
  indexed by the model identifier (within a single run the image bytes and the
  query are fixed, so the model identifier is the only varying request field).
  `TransportOutcome.raises` models `requests.post` raising (timeout,
  connection error, ...); `TransportOutcome.returns r` models it returning a
  response object.

* A `requests.Response` is modelled by `HttpResponse`: its `status_code`, its
  `.text`, and the outcome of `response.json()["choices"][0]["message"]["content"]`
  (`Body.wellFormed c` when that expression evaluates to the string `c`,
  `Body.malformed msg` when it raises an exception whose `str` is `msg` —
  a `KeyError`/`IndexError`/JSON decode error).

* Python truthiness is embedded where the source relies on it:
  `requests.Response.__bool__` is `Response.ok`, which is `False` exactly for
  status codes 400..599 (`pyTruthy`); a non-empty dict is truthy; `None` is
  falsy; `not query` on a string is true exactly for the empty string.

* PIL decoding of the uploaded bytes is abstracted as an `ImageDecode` value:
  `openRaises msg` when `Image.open` itself raises (unidentifiable bytes),
  `verifyRaises msg` when `Image.open` succeeds and `img.verify()` raises
  (corrupt payload), `decodesOk` when both succeed.  In the `openRaises`
  branch the source's inner handler
  `return {"error": f"Invalid image: {str(e)}"}, img` evaluates the local
  variable `img`, which was never assigned, so Python raises
  `NameError("name img is not defined")`, which the outer
  `except Exception as e` converts to the generic
  `"Error processing image: ..."` dict.  (Exception texts are embedded
  without Python's surrounding quote characters.)

* The run output is `RunOutput`: `results` is the Python dict in insertion
  order (the outer handler's dict has the single key `"error"`), and `calls`
  is the instrumentation the spec asks for ("mockable transport"): the list of
  model identifiers for which `requests.post` was actually invoked, in order.
  The second component of the Python return value (the PIL preview handle) is
  not carried: no claim concerns it.
-/

/-- Outcome of `response.json()["choices"][0]["message"]["content"]` for a
response body: either the expected shape is present and yields `c`, or the
expression raises an exception rendered as `msg`. -/
inductive Body where
  | wellFormed (c : String)
  | malformed (msg : String)
deriving DecidableEq, Repr

/-- A `requests.Response`: status code, `.text`, and its body shape. -/
structure HttpResponse where
  status : Nat
  text : String
  body : Body
deriving DecidableEq, Repr

/-- What `requests.post` does for a given model identifier. -/
inductive TransportOutcome where
  | raises
  | returns (r : HttpResponse)
deriving DecidableEq, Repr

/-- Process-wide configuration: the value of `os.getenv("GROQ_API_KEY")`
(`none` when the variable is absent). -/
structure Env where
  apiKey : Option String
deriving DecidableEq, Repr

/-- Python `not api_key` for `api_key = os.getenv(...)`: true for `None` and
for the empty string. -/
def keyFalsy : Option String → Bool
  | Option.none => true
  | Option.some s => s == ""

/-- Value returned by `make_api_request` (app.py lines 58-93): the error dict
when the key is falsy, `None` when `requests.post` raises, or the response. -/
inductive ApiResult where
  | errorDict (msg : String)
  | noneResult
  | response (r : HttpResponse)
deriving DecidableEq, Repr

/-- `make_api_request(model, base64_image, query)` (app.py lines 58-93),
paired with the list of models for which `requests.post` was invoked (empty
when the function returns before reaching the network, singleton otherwise —
a request that raises was still issued).  The base64 image and the query only
shape the request payload, which the transport stub abstracts. -/
def make_api_request (env : Env) (transport : String → TransportOutcome)
    (model : String) : ApiResult × List String :=
  if keyFalsy env.apiKey then
    (ApiResult.errorDict "GROQ_API_KEY not found in environment variables", [])
  else
    match transport model with
    | TransportOutcome.raises => (ApiResult.noneResult, [model])
    | TransportOutcome.returns r => (ApiResult.response r, [model])

/-- `requests.Response.__bool__`, i.e. `Response.ok`: false exactly for
status codes 400..599. -/
def pyTruthy (r : HttpResponse) : Bool :=
  decide (r.status < 400 ∨ 600 ≤ r.status)

/-- The per-model block of `process_image` (app.py lines 124-137):

    if responseN and responseN.status_code == 200:
        results[label] = responseN.json()["choices"][0]["message"]["content"]
    else:
        error_msg = responseN.text if responseN else "Request failed"
        results[label] = f"Error: {error_msg}"

`Except.ok v` means `results[label] = v` was assigned; `Except.error e` means
an exception with text `e` escaped this block to the outer handler: the error
dict is truthy and has no `status_code` attribute (AttributeError), and a 200
response with a malformed body raises while extracting the content. -/
def handleModel : ApiResult → Except String String
  | ApiResult.errorDict _ =>
      Except.error "dict object has no attribute status_code"
  | ApiResult.noneResult =>
      Except.ok ("Error: " ++ "Request failed")
  | ApiResult.response r =>
      if pyTruthy r && r.status == 200 then
        match r.body with
        | Body.wellFormed c => Except.ok c
        | Body.malformed msg => Except.error msg
      else
        Except.ok ("Error: " ++ (if pyTruthy r then r.text else "Request failed"))

/-- What PIL does on the uploaded bytes (app.py lines 101-108). -/
inductive ImageDecode where
  | openRaises (msg : String)
  | verifyRaises (msg : String)
  | decodesOk
deriving DecidableEq, Repr

/-- The result of `process_image`: the returned dict in insertion order and
the list of models for which an HTTP request was actually issued. -/
structure RunOutput where
  results : List (String × String)
  calls : List String
deriving DecidableEq, Repr

def scoutLabel : String := "Llama-4 Scout (17B)"

def scoutId : String := "meta-llama/llama-4-scout-17b-16e-instruct"

def maverickLabel : String := "Llama-4 Maverick (90B)"

def maverickId : String := "meta-llama/llama-4-maverick-17b-128e-instruct"

/-- The fixed model configuration of `process_image` (app.py lines 115-118). -/
def models : List (String × String) :=
  [(scoutLabel, scoutId), (maverickLabel, maverickId)]

/-- `process_image(image_file, query)` (app.py lines 95-143).

Validation: on `verifyRaises msg` the inner handler returns the
`{"error": "Invalid image: ..."}` dict; on `openRaises msg` the inner handler
itself raises `NameError` (it reads the unassigned local `img`), which the
outer `except Exception as e` turns into the generic
`{"error": "Error processing image: ..."}` dict.  On success the two model
requests run sequentially; an exception escaping either per-model block is
caught by the same outer handler, which discards any results computed so far
and returns the single-key error dict. -/
def process_image (env : Env) (transport : String → TransportOutcome)
    (decode : ImageDecode) (query : String) : RunOutput :=
  match decode with
  | ImageDecode.openRaises _ =>
      { results := [("error", "Error processing image: name img is not defined")],
        calls := [] }
  | ImageDecode.verifyRaises msg =>
      { results := [("error", "Invalid image: " ++ msg)], calls := [] }
  | ImageDecode.decodesOk =>
      let p1 := make_api_request env transport scoutId
      match handleModel p1.1 with
      | Except.error e =>
          { results := [("error", "Error processing image: " ++ e)], calls := p1.2 }
      | Except.ok v1 =>
          let p2 := make_api_request env transport maverickId
          match handleModel p2.1 with
          | Except.error e =>
              { results := [("error", "Error processing image: " ++ e)],
                calls := p1.2 ++ p2.2 }
          | Except.ok v2 =>
              { results := [(scoutLabel, v1), (maverickLabel, v2)],
                calls := p1.2 ++ p2.2 }

/-- The analyze-button flow of `main` (app.py lines 169-178): `if not query:`
shows a warning and never calls `process_image` — true exactly for the empty
string, so a whitespace-only query proceeds. -/
def analyze (env : Env) (transport : String → TransportOutcome)
    (decode : ImageDecode) (query : String) : Option RunOutput :=
  if query == "" then Option.none
  else Option.some (process_image env transport decode query)

/-- HTTP calls issued by the analyze flow (none when the query guard fires). -/
def issuedCalls : Option RunOutput → List String
  | Option.none => []
  | Option.some o => o.calls

/-- Substring test on character lists, structural in the scanned list. -/
def hasPattern (pat : List Char) : List Char → Bool
  | [] => pat.isEmpty
  | c :: rest => pat.isPrefixOf (c :: rest) || hasPattern pat rest

/-- Python's `pat in s` on strings. -/
def containsText (s pat : String) : Bool :=
  hasPattern pat.toList s.toList

/-- The rendering layer's classification (app.py lines 191-195):
`if "Error" in response_text: st.error(response_text)`. -/
def rendersAsError (t : String) : Bool :=
  containsText t "Error"

/-- A 200 response whose body has the expected shape with content `c`. -/
def resp200 (c : String) : HttpResponse :=
  { status := 200, text := "", body := Body.wellFormed c }

/-- A transport stub answering `a` for the Scout model and `b` otherwise. -/
def twoModelTransport (a b : TransportOutcome) : String → TransportOutcome :=
  fun m => if m == scoutId then a else b

/-- An environment holding a non-empty API key. -/
def envOK : Env := { apiKey := Option.some "test-key" }

/-- A transport for which every request raises (times out). -/
def trRaises : String → TransportOutcome := fun _ => TransportOutcome.raises

/-- A transport outcome that makes the per-model block raise past itself:
a truthy 200 response whose body lacks the expected JSON shape. -/
def raisesPastHandler : TransportOutcome → Bool
  | TransportOutcome.raises => false
  | TransportOutcome.returns r =>
      (pyTruthy r && r.status == 200) &&
        (match r.body with | Body.malformed _ => true | _ => false)

theorem make_api_request_calls (env : Env) (tr : String → TransportOutcome)
    (m : String) (hk : keyFalsy env.apiKey = false) :
    (make_api_request env tr m).2 = [m] := by
  unfold make_api_request
  rw [hk]
  cases tr m <;> rfl

theorem make_api_request_response (env : Env) (tr : String → TransportOutcome)
    (m : String) (r : HttpResponse) (hk : keyFalsy env.apiKey = false)
    (h : (make_api_request env tr m).1 = ApiResult.response r) :
    tr m = TransportOutcome.returns r := by
  unfold make_api_request at h
  rw [hk] at h
  cases htm : tr m <;> rw [htm] at h <;> simp_all

theorem pyTruthy_of_200 (r : HttpResponse) (h : r.status = 200) :
    pyTruthy r = true := by
  simp [pyTruthy, h]

theorem handleModel_ok (env : Env) (tr : String → TransportOutcome) (m : String)
    (hk : keyFalsy env.apiKey = false)
    (h : raisesPastHandler (tr m) = false) :
    ∃ v, handleModel (make_api_request env tr m).1 = Except.ok v := by
  cases htm : tr m with
  | raises =>
    exact ⟨"Error: " ++ "Request failed", by simp [make_api_request, hk, htm, handleModel]⟩
  | returns r =>
    rw [htm] at h
    simp only [raisesPastHandler] at h
    have hfst : (make_api_request env tr m).1 = ApiResult.response r := by
      simp [make_api_request, hk, htm]
    rw [hfst]
    cases hcond : (pyTruthy r && r.status == 200) with
    | false =>
      exact ⟨"Error: " ++ (if pyTruthy r then r.text else "Request failed"),
        by simp [handleModel, hcond]⟩
    | true =>
      rw [hcond] at h
      simp only [Bool.true_and] at h
      cases hb : r.body with
      | wellFormed c => exact ⟨c, by simp [handleModel, hcond, hb]⟩
      | malformed msg => rw [hb] at h; simp at h

theorem process_image_two_slots (env : Env) (tr : String → TransportOutcome)
    (q : String) (hk : keyFalsy env.apiKey = false)
    (h1 : raisesPastHandler (tr scoutId) = false)
    (h2 : raisesPastHandler (tr maverickId) = false) :
    ∃ v1 v2,
      process_image env tr ImageDecode.decodesOk q =
        { results := [(scoutLabel, v1), (maverickLabel, v2)],
          calls := [scoutId, maverickId] } ∧
      handleModel (make_api_request env tr scoutId).1 = Except.ok v1 ∧
      handleModel (make_api_request env tr maverickId).1 = Except.ok v2 := by
  obtain ⟨v1, hv1⟩ := handleModel_ok env tr scoutId hk h1
  obtain ⟨v2, hv2⟩ := handleModel_ok env tr maverickId hk h2
  refine ⟨v1, v2, ?_, hv1, hv2⟩
  simp only [process_image]
  rw [hv1, hv2, make_api_request_calls env tr scoutId hk,
    make_api_request_calls env tr maverickId hk]
  rfl

/-- Scout answers with a 200 response whose body lacks the expected JSON
shape; Maverick would answer a well-formed 200. -/
def trC1 : String → TransportOutcome :=
  twoModelTransport
    (TransportOutcome.returns { status := 200, text := "", body := Body.malformed "choices" })
    (TransportOutcome.returns (resp200 "ok"))

/-- Claim C1 counterexample: with the key present, Scout returning a 200
response with a malformed body, and Maverick configured to answer a
well-formed 200, the run does not put a failure result in the Scout slot: the
whole mapping collapses to the single top-level error entry, and Maverick's
request is never issued. -/
theorem C1_counterexample :
    process_image envOK trC1 ImageDecode.decodesOk "q" =
      { results := [("error", "Error processing image: " ++ "choices")],
        calls := [scoutId] } ∧
    ((process_image envOK trC1 ImageDecode.decodesOk "q").results).lookup scoutLabel =
      Option.none ∧
    maverickId ∉ (process_image envOK trC1 ImageDecode.decodesOk "q").calls := by
  refine ⟨by decide, by decide, by decide⟩

/-- Claim C1 (amended): a 200 response whose body lacks the expected
`choices[0].message.content` shape makes the content extraction raise past
the per-model handling into the outer catch-all, so the run returns the
single top-level `error` entry instead of a per-model failure slot; when
Scout's response is the malformed one, Maverick's request is never issued,
and when Maverick's response is the malformed one (its block being reached
because Scout's block assigned a result), Scout's already-computed result is
discarded. -/
theorem C1_malformed_response_global (env : Env) (tr : String → TransportOutcome)
    (q t msg : String) (hk : keyFalsy env.apiKey = false) :
    (tr scoutId = TransportOutcome.returns { status := 200, text := t, body := Body.malformed msg } →
      process_image env tr ImageDecode.decodesOk q =
        { results := [("error", "Error processing image: " ++ msg)],
          calls := [scoutId] }) ∧
    (∀ v1, handleModel (make_api_request env tr scoutId).1 = Except.ok v1 →
      tr maverickId = TransportOutcome.returns { status := 200, text := t, body := Body.malformed msg } →
      process_image env tr ImageDecode.decodesOk q =
        { results := [("error", "Error processing image: " ++ msg)],
          calls := [scoutId, maverickId] }) := by
  constructor
  · intro h1
    have hfst : (make_api_request env tr scoutId).1 =
        ApiResult.response { status := 200, text := t, body := Body.malformed msg } := by
      simp [make_api_request, hk, h1]
    have hm : handleModel (make_api_request env tr scoutId).1 = Except.error msg := by
      rw [hfst]; simp [handleModel, pyTruthy]
    simp only [process_image]
    rw [hm, make_api_request_calls env tr scoutId hk]
  · intro v1 hv1 h2
    have hfst : (make_api_request env tr maverickId).1 =
        ApiResult.response { status := 200, text := t, body := Body.malformed msg } := by
      simp [make_api_request, hk, h2]
    have hm : handleModel (make_api_request env tr maverickId).1 = Except.error msg := by
      rw [hfst]; simp [handleModel, pyTruthy]
    simp only [process_image]
    rw [hv1, hm, make_api_request_calls env tr scoutId hk,
      make_api_request_calls env tr maverickId hk]
    rfl

/-- Witness for the amended claim C1 at a concrete input. -/
theorem C1_malformed_response_global_witness :
    process_image envOK trC1 ImageDecode.decodesOk "q" =
      { results := [("error", "Error processing image: " ++ "choices")],
        calls := [scoutId] } :=
  (C1_malformed_response_global envOK trC1 "q" "" "choices" (by decide)).1 (by decide)

/-- Claim C2: if one model's `requests.post` raises (timeout, connection
error) and the other returns HTTP 200 with a well-formed body, the raising
model's slot holds the generic failure string `"Error: Request failed"`, the
succeeding model's slot holds its content text exactly, and both requests
were issued (failure isolation).  Both role assignments are covered. -/
theorem C2_transport_failure_isolated (env : Env) (tr : String → TransportOutcome)
    (q t c : String) (hk : keyFalsy env.apiKey = false) :
    (tr scoutId = TransportOutcome.raises →
      tr maverickId = TransportOutcome.returns { status := 200, text := t, body := Body.wellFormed c } →
      process_image env tr ImageDecode.decodesOk q =
        { results := [(scoutLabel, "Error: " ++ "Request failed"), (maverickLabel, c)],
          calls := [scoutId, maverickId] }) ∧
    (tr maverickId = TransportOutcome.raises →
      tr scoutId = TransportOutcome.returns { status := 200, text := t, body := Body.wellFormed c } →
      process_image env tr ImageDecode.decodesOk q =
        { results := [(scoutLabel, c), (maverickLabel, "Error: " ++ "Request failed")],
          calls := [scoutId, maverickId] }) := by
  constructor
  · intro hA hB
    have h1 : handleModel (make_api_request env tr scoutId).1 =
        Except.ok ("Error: " ++ "Request failed") := by
      simp [make_api_request, hk, hA, handleModel]
    have h2 : handleModel (make_api_request env tr maverickId).1 = Except.ok c := by
      simp [make_api_request, hk, hB, handleModel, pyTruthy]
    simp only [process_image]
    rw [h1, h2, make_api_request_calls env tr scoutId hk,
      make_api_request_calls env tr maverickId hk]
    rfl
  · intro hA hB
    have h1 : handleModel (make_api_request env tr scoutId).1 = Except.ok c := by
      simp [make_api_request, hk, hB, handleModel, pyTruthy]
    have h2 : handleModel (make_api_request env tr maverickId).1 =
        Except.ok ("Error: " ++ "Request failed") := by
      simp [make_api_request, hk, hA, handleModel]
    simp only [process_image]
    rw [h1, h2, make_api_request_calls env tr scoutId hk,
      make_api_request_calls env tr maverickId hk]
    rfl

/-- Witness for claim C2 at a concrete input: Scout times out, Maverick
answers 200 with content `"fine"`. -/
theorem C2_transport_failure_isolated_witness :
    process_image envOK
      (twoModelTransport TransportOutcome.raises (TransportOutcome.returns (resp200 "fine")))
      ImageDecode.decodesOk "q" =
      { results := [(scoutLabel, "Error: " ++ "Request failed"), (maverickLabel, "fine")],
        calls := [scoutId, maverickId] } :=
  (C2_transport_failure_isolated envOK
    (twoModelTransport TransportOutcome.raises (TransportOutcome.returns (resp200 "fine")))
    "q" "" "fine" (by decide)).1 (by decide) (by decide)

/-- Claim C3 (code behavior at the failing input): with `GROQ_API_KEY` absent,
a valid image and any query, `make_api_request` returns its error dict before
any network call, but `process_image` then evaluates `.status_code` on that
truthy dict, so the AttributeError reaches the outer handler: the run issues
zero HTTP calls (as claimed) yet returns the generic processing-error outcome,
not a configuration-error message. -/
theorem C3_missing_key_behavior (tr : String → TransportOutcome) (q : String) :
    process_image { apiKey := Option.none } tr ImageDecode.decodesOk q =
      { results := [("error",
          "Error processing image: " ++ "dict object has no attribute status_code")],
        calls := [] } := by
  simp only [process_image]
  have h1 : handleModel (make_api_request { apiKey := Option.none } tr scoutId).1 =
      Except.error "dict object has no attribute status_code" := by
    simp [make_api_request, keyFalsy, handleModel]
  rw [h1]
  simp [make_api_request, keyFalsy]

/-- Scout answers a well-formed 200; Maverick answers a 200 whose body lacks
the expected JSON shape.  Both requests are issued and both return responses. -/
def trC4 : String → TransportOutcome :=
  twoModelTransport
    (TransportOutcome.returns (resp200 "ok"))
    (TransportOutcome.returns { status := 200, text := "", body := Body.malformed "choices" })

/-- Claim C4 counterexample: with the key present, both requests issued and
both returning HTTP responses (Scout a well-formed 200, Maverick a 200 with a
malformed body), the run does not produce two labelled entries: the content
extraction for Maverick raises to the outer handler and the mapping collapses
to the single `error` entry. -/
theorem C4_counterexample :
    trC4 scoutId = TransportOutcome.returns (resp200 "ok") ∧
    trC4 maverickId =
      TransportOutcome.returns { status := 200, text := "", body := Body.malformed "choices" } ∧
    (process_image envOK trC4 ImageDecode.decodesOk "q").calls = [scoutId, maverickId] ∧
    (process_image envOK trC4 ImageDecode.decodesOk "q").results.length ≠ 2 ∧
    ((process_image envOK trC4 ImageDecode.decodesOk "q").results).map Prod.fst ≠
      [scoutLabel, maverickLabel] := by
  refine ⟨by decide, by decide, by decide, by decide, by decide⟩

/-- Claim C4 (amended): with the key present, the run produces exactly two
entries keyed by the display labels in configuration order (Scout first,
Maverick second) provided neither model's outcome is a 200 response with a
malformed body; such a response instead collapses the mapping to the single
top-level `error` entry. -/
theorem C4_two_entries_in_order (env : Env) (tr : String → TransportOutcome)
    (q : String) (hk : keyFalsy env.apiKey = false)
    (h1 : raisesPastHandler (tr scoutId) = false)
    (h2 : raisesPastHandler (tr maverickId) = false) :
    ((process_image env tr ImageDecode.decodesOk q).results).map Prod.fst =
      [scoutLabel, maverickLabel] ∧
    (process_image env tr ImageDecode.decodesOk q).results.length = 2 := by
  obtain ⟨v1, v2, heq, -, -⟩ := process_image_two_slots env tr q hk h1 h2
  rw [heq]
  exact ⟨rfl, rfl⟩

/-- Witness for the amended claim C4 at a concrete input (both requests time
out; the mapping still has the two labelled slots in order). -/
theorem C4_two_entries_in_order_witness :
    ((process_image envOK trRaises ImageDecode.decodesOk "q").results).map Prod.fst =
      [scoutLabel, maverickLabel] ∧
    (process_image envOK trRaises ImageDecode.decodesOk "q").results.length = 2 :=
  C4_two_entries_in_order envOK trRaises "q" (by decide) (by decide) (by decide)

/-- Scout answers a well-formed 200 carrying the spec's example text; Maverick
answers a 200 whose body lacks the expected shape. -/
def trC5 : String → TransportOutcome :=
  twoModelTransport
    (TransportOutcome.returns (resp200 "No anomalies detected."))
    (TransportOutcome.returns { status := 200, text := "", body := Body.malformed "choices" })

/-- Claim C5 counterexample: Scout returns HTTP 200 with the well-formed body
`{"choices":[{"message":{"content":"No anomalies detected."}}]}`, yet its slot
does not hold that text — it does not exist at all, because the sibling
model's malformed 200 response raised to the outer handler and replaced the
mapping with the single `error` entry. -/
theorem C5_counterexample :
    trC5 scoutId = TransportOutcome.returns (resp200 "No anomalies detected.") ∧
    ((process_image envOK trC5 ImageDecode.decodesOk "q").results).lookup scoutLabel =
      Option.none := by
  refine ⟨by decide, by decide⟩

/-- Claim C5 (amended): with the key present, a model answering HTTP 200 with
body shape `choices[0].message.content = c` gets a success slot equal to `c`
exactly, provided the sibling model's outcome is not a 200 response with a
malformed body (which would collapse the whole mapping). -/
theorem C5_success_slot_exact (env : Env) (tr : String → TransportOutcome)
    (q : String) (hk : keyFalsy env.apiKey = false) :
    (∀ t c, tr scoutId = TransportOutcome.returns { status := 200, text := t, body := Body.wellFormed c } →
      raisesPastHandler (tr maverickId) = false →
      ((process_image env tr ImageDecode.decodesOk q).results).lookup scoutLabel =
        Option.some c) ∧
    (∀ t c, tr maverickId = TransportOutcome.returns { status := 200, text := t, body := Body.wellFormed c } →
      raisesPastHandler (tr scoutId) = false →
      ((process_image env tr ImageDecode.decodesOk q).results).lookup maverickLabel =
        Option.some c) := by
  constructor
  · intro t c hA hB
    have h1 : raisesPastHandler (tr scoutId) = false := by
      rw [hA]; simp [raisesPastHandler]
    obtain ⟨v1, v2, heq, hv1, hv2⟩ := process_image_two_slots env tr q hk h1 hB
    have hok : handleModel (make_api_request env tr scoutId).1 = Except.ok c := by
      simp [make_api_request, hk, hA, handleModel, pyTruthy]
    rw [hok] at hv1
    cases hv1
    rw [heq]
    simp [List.lookup]
  · intro t c hA hB
    have h2 : raisesPastHandler (tr maverickId) = false := by
      rw [hA]; simp [raisesPastHandler]
    obtain ⟨v1, v2, heq, hv1, hv2⟩ := process_image_two_slots env tr q hk hB h2
    have hok : handleModel (make_api_request env tr maverickId).1 = Except.ok c := by
      simp [make_api_request, hk, hA, handleModel, pyTruthy]
    rw [hok] at hv2
    cases hv2
    rw [heq]
    have hne : (maverickLabel == scoutLabel) = false := by decide
    simp [List.lookup, hne]

/-- A transport where both models answer well-formed 200 responses. -/
def trBothOK : String → TransportOutcome :=
  twoModelTransport
    (TransportOutcome.returns (resp200 "No anomalies detected."))
    (TransportOutcome.returns (resp200 "ok"))

/-- Witness for the amended claim C5 at a concrete input. -/
theorem C5_success_slot_exact_witness :
    ((process_image envOK trBothOK ImageDecode.decodesOk "q").results).lookup scoutLabel =
      Option.some "No anomalies detected." :=
  (C5_success_slot_exact envOK trBothOK "q" (by decide)).1 "" "No anomalies detected."
    (by decide) (by decide)

/-- Scout answers HTTP 500 with body text `"server error"`; Maverick answers a
well-formed 200. -/
def trC6 : String → TransportOutcome :=
  twoModelTransport
    (TransportOutcome.returns
      { status := 500, text := "server error", body := Body.malformed "not json" })
    (TransportOutcome.returns (resp200 "ok"))

/-- Scout answers HTTP 302 with body text `"redirected"`; Maverick answers a
well-formed 200. -/
def trC6b : String → TransportOutcome :=
  twoModelTransport
    (TransportOutcome.returns
      { status := 302, text := "redirected", body := Body.malformed "not json" })
    (TransportOutcome.returns (resp200 "ok"))

/-- Claim C6 (code behavior at the failing input): a 500 response is falsy
under `requests.Response.__bool__`, so `error_msg = response1.text if
response1 else "Request failed"` picks the generic message and discards the
body — the Scout slot is `"Error: Request failed"`, which does not contain
`"server error"`.  By contrast a truthy non-200 response (e.g. 302) does
carry its body text, as the claim expects for every non-200 status. -/
theorem C6_http_500_drops_body :
    pyTruthy { status := 500, text := "server error", body := Body.malformed "not json" } = false ∧
    (process_image envOK trC6 ImageDecode.decodesOk "q").results =
      [(scoutLabel, "Error: " ++ "Request failed"), (maverickLabel, "ok")] ∧
    containsText ("Error: " ++ "Request failed") "server error" = false ∧
    (process_image envOK trC6b ImageDecode.decodesOk "q").results =
      [(scoutLabel, "Error: " ++ "redirected"), (maverickLabel, "ok")] := by
  refine ⟨by decide, by decide, by decide, by decide⟩

/-- Claim C7 counterexample: for garbage bytes `Image.open` itself raises, and
the validation diagnostic `"Invalid image: ..."` is not what comes back: the
inner handler's reference to the unassigned `img` raises `NameError`, and the
outcome is the generic processing error (still with zero HTTP requests). -/
theorem C7_counterexample :
    process_image envOK trRaises (ImageDecode.openRaises "cannot identify image file") "q" =
      { results := [("error", "Error processing image: name img is not defined")],
        calls := [] } ∧
    containsText "Error processing image: name img is not defined" "Invalid image" = false := by
  refine ⟨by decide, by decide⟩

/-- Claim C7 (amended): for every byte sequence that does not decode as a
well-formed raster image, the outcome is a single top-level `error` entry and
zero HTTP requests are issued; the error carries the `"Invalid image: ..."`
validation diagnostic only when `Image.open` succeeds and `img.verify()`
raises — when `Image.open` itself raises, the diagnostic is the generic
`"Error processing image: ..."` text instead. -/
theorem C7_invalid_image_blocks_run (env : Env) (tr : String → TransportOutcome)
    (q : String) :
    (∀ msg, process_image env tr (ImageDecode.verifyRaises msg) q =
      { results := [("error", "Invalid image: " ++ msg)], calls := [] }) ∧
    (∀ msg, process_image env tr (ImageDecode.openRaises msg) q =
      { results := [("error", "Error processing image: name img is not defined")],
        calls := [] }) :=
  ⟨fun _ => rfl, fun _ => rfl⟩

/-- Claim C8 counterexample: a whitespace-only query is truthy in Python, so
`if not query:` does not fire — the analysis proceeds and both HTTP requests
are issued. -/
theorem C8_counterexample :
    analyze envOK trRaises ImageDecode.decodesOk " " =
      Option.some
        { results := [(scoutLabel, "Error: " ++ "Request failed"),
            (maverickLabel, "Error: " ++ "Request failed")],
          calls := [scoutId, maverickId] } ∧
    issuedCalls (analyze envOK trRaises ImageDecode.decodesOk " ") ≠ [] := by
  refine ⟨by decide, by decide⟩

/-- Claim C8 (amended): only the exactly-empty query is rejected before any
HTTP call (the warning path returns no outcome and issues no request); a
whitespace-only query passes the guard. -/
theorem C8_empty_query_no_call (env : Env) (tr : String → TransportOutcome)
    (decode : ImageDecode) :
    analyze env tr decode "" = Option.none ∧
    issuedCalls (analyze env tr decode "") = [] :=
  ⟨rfl, rfl⟩

/-- Claim C9: when `Image.open` itself raises, the `"Invalid image: ..."`
diagnostic of the inner handler is never returned — that handler reads the
unassigned local `img`, the resulting `NameError` escapes to the outer
handler, and the outcome is the generic `"Error processing image: ..."`
top-level error, with zero HTTP requests issued. -/
theorem C9_open_raise_is_generic_error (env : Env) (tr : String → TransportOutcome)
    (q msg : String) :
    process_image env tr (ImageDecode.openRaises msg) q =
      { results := [("error", "Error processing image: name img is not defined")],
        calls := [] } ∧
    containsText "Error processing image: name img is not defined" "Invalid image" = false :=
  ⟨rfl, by decide⟩

theorem handleModel_ok_form (a : ApiResult) (v : String)
    (h : handleModel a = Except.ok v) :
    (∃ r c, a = ApiResult.response r ∧ r.status = 200 ∧
      r.body = Body.wellFormed c ∧ v = c) ∨
    (∃ d, v = "Error: " ++ d) := by
  cases a with
  | errorDict msg => simp [handleModel] at h
  | noneResult =>
    right
    have h' : Except.ok ("Error: " ++ "Request failed") = Except.ok v := h
    exact ⟨"Request failed", (Except.ok.inj h').symm⟩
  | response r =>
    simp only [handleModel] at h
    cases hcond : (pyTruthy r && r.status == 200) with
    | true =>
      rw [hcond] at h
      simp only [if_true] at h
      cases hb : r.body with
      | wellFormed c =>
        rw [hb] at h
        left
        have hst : r.status = 200 := by
          have h2 := (Bool.and_eq_true _ _).mp hcond
          simpa using h2.2
        exact ⟨r, c, rfl, hst, hb, (Except.ok.inj h).symm⟩
      | malformed msg => rw [hb] at h; exact absurd h (by simp)
    | false =>
      rw [hcond] at h
      simp only [Bool.false_eq_true, if_false] at h
      right
      exact ⟨if pyTruthy r then r.text else "Request failed", (Except.ok.inj h).symm⟩

theorem slot_of_lookup (env : Env) (tr : String → TransportOutcome)
    (q : String) (v : String) :
    (((process_image env tr ImageDecode.decodesOk q).results).lookup scoutLabel =
        Option.some v →
      handleModel (make_api_request env tr scoutId).1 = Except.ok v) ∧
    (((process_image env tr ImageDecode.decodesOk q).results).lookup maverickLabel =
        Option.some v →
      handleModel (make_api_request env tr maverickId).1 = Except.ok v) := by
  have hs : (scoutLabel == "error") = false := by decide
  have hm : (maverickLabel == "error") = false := by decide
  have hss : (scoutLabel == scoutLabel) = true := by decide
  have hms : (maverickLabel == scoutLabel) = false := by decide
  have hmm : (maverickLabel == maverickLabel) = true := by decide
  cases h1 : handleModel (make_api_request env tr scoutId).1 with
  | error e =>
    constructor <;> intro hl <;>
      simp [process_image, h1, List.lookup, hs, hm] at hl
  | ok v1 =>
    cases h2 : handleModel (make_api_request env tr maverickId).1 with
    | error e =>
      constructor <;> intro hl <;>
        simp [process_image, h1, h2, List.lookup, hs, hm] at hl
    | ok v2 =>
      constructor
      · intro hl
        simp only [process_image, h1, h2, List.lookup, hss, hms, hmm] at hl
        rw [← Option.some.inj hl]
      · intro hl
        simp only [process_image, h1, h2, List.lookup, hss, hms, hmm] at hl
        rw [← Option.some.inj hl]

/-- Scout answers a well-formed 200 whose content itself contains the word
`"Error"`; Maverick answers a well-formed 200. -/
def trC10 : String → TransportOutcome :=
  twoModelTransport
    (TransportOutcome.returns (resp200 "Error rates are low"))
    (TransportOutcome.returns (resp200 "ok"))

/-- Claim C10: every labelled slot of the returned mapping is either the raw
content text of a well-formed 200 response for that model (no marker), or
exactly the string `"Error: "` followed by the error detail; success and
failure share the string type, and the rendering layer classifies a slot only
by the substring check `"Error" in response_text` — so a success text that
contains `"Error"` (here a genuine success slot holding
`"Error rates are low"`) is classified exactly like a failure string. -/
theorem C10_in_band_error_marker (env : Env) (tr : String → TransportOutcome)
    (q v : String) (hk : keyFalsy env.apiKey = false) :
    (((process_image env tr ImageDecode.decodesOk q).results).lookup scoutLabel =
        Option.some v →
      (∃ r c, tr scoutId = TransportOutcome.returns r ∧ r.status = 200 ∧
        r.body = Body.wellFormed c ∧ v = c) ∨
      (∃ d, v = "Error: " ++ d)) ∧
    (((process_image env tr ImageDecode.decodesOk q).results).lookup maverickLabel =
        Option.some v →
      (∃ r c, tr maverickId = TransportOutcome.returns r ∧ r.status = 200 ∧
        r.body = Body.wellFormed c ∧ v = c) ∨
      (∃ d, v = "Error: " ++ d)) ∧
    ((process_image envOK trC10 ImageDecode.decodesOk "q").results).lookup scoutLabel =
      Option.some "Error rates are low" ∧
    rendersAsError "Error rates are low" = true ∧
    rendersAsError ("Error: " ++ "Request failed") = true := by
  refine ⟨?_, ?_, by decide, by decide, by decide⟩
  · intro hl
    have hok := (slot_of_lookup env tr q v).1 hl
    rcases handleModel_ok_form _ v hok with ⟨r, c, ha, hst, hb, hv⟩ | hd
    · exact Or.inl ⟨r, c, make_api_request_response env tr scoutId r hk ha, hst, hb, hv⟩
    · exact Or.inr hd
  · intro hl
    have hok := (slot_of_lookup env tr q v).2 hl
    rcases handleModel_ok_form _ v hok with ⟨r, c, ha, hst, hb, hv⟩ | hd
    · exact Or.inl ⟨r, c, make_api_request_response env tr maverickId r hk ha, hst, hb, hv⟩
    · exact Or.inr hd

/-- Witness for claim C10 at a concrete input: the Scout slot of a run whose
requests both time out holds the failure string, and the theorem classifies
it into the `"Error: " ++ detail` form. -/
theorem C10_in_band_error_marker_witness :
    (∃ r c, trRaises scoutId = TransportOutcome.returns r ∧ r.status = 200 ∧
      r.body = Body.wellFormed c ∧ "Error: " ++ "Request failed" = c) ∨
    (∃ d, "Error: " ++ "Request failed" = "Error: " ++ d) :=
  (C10_in_band_error_marker envOK trRaises "q" ("Error: " ++ "Request failed")
    (by decide)).1 (by decide)
